import Mathlib

/-
Verification of the EVOLX backend tile pipeline (src/server.js).

The development shallow-embeds the tile-serving pipeline of the handler
GET /api/tiles/:z/:x/:y:
- the coordinate layer (tileToLatLon, projToPixel) is embedded over the
  real numbers, since the source computes with transcendental functions;
- the window resolver, the pixel compositor (the RGB interleave loop),
  the bounded tile cache and the request orchestration are embedded as
  executable functions over integers, rationals and lists.
The external collaborators (the proj4 reprojection, the GDAL band reads,
the sharp codec) are black boxes in the source; they appear here as
oracle fields of TileEnv and as the constructors of TileBuf, which record
exactly the data the source hands to them.  JS Math.round agrees with the
Mathlib round function (halves round toward positive infinity), and a JS
Number holds the small integer and rational values appearing here exactly,
so Int and Rat arithmetic is a faithful model on the values involved.
-/

set_option maxRecDepth 8192

namespace TileServer

/-- Affine geotransform coefficients of the raster, as destructured from
dataset.geoTransform at line 202 of server.js. -/
structure GeoTransform where
  originX : ℝ
  pixelWidth : ℝ
  skewX : ℝ
  originY : ℝ
  skewY : ℝ
  pixelHeight : ℝ

/-- Embeds tileToLatLon (server.js lines 171-177): slippy-tile corner to
longitude and latitude, returned as the pair (lon, lat).  The code writes
the latitude with 0.5 * (exp n - exp (-n)). -/
noncomputable def tileToLatLon (x y : ℤ) (z : ℕ) : ℝ × ℝ :=
  let n : ℝ := Real.pi - 2 * Real.pi * (y : ℝ) / 2 ^ z
  ((x : ℝ) / 2 ^ z * 360 - 180,
   180 / Real.pi * Real.arctan (0.5 * (Real.exp n - Real.exp (-n))))

/-- Embeds projToPixel (server.js lines 205-209): projected coordinates to
raster pixel column and row via Math.round. -/
noncomputable def projToPixel (gt : GeoTransform) (projX projY : ℝ) : ℤ × ℤ :=
  (round ((projX - gt.originX) / gt.pixelWidth),
   round ((projY - gt.originY) / gt.pixelHeight))

/-- Raster dimensions (info.width, info.height) used by the handler. -/
structure RasterInfo where
  width : ℤ
  height : ℤ
deriving DecidableEq

/-- Integer pixel point, the output type of projToPixel. -/
structure Pt where
  x : ℤ
  y : ℤ
deriving DecidableEq

/-- The four tile corners after reprojection and pixel conversion
(nwPixel, nePixel, swPixel, sePixel at server.js lines 211-214). -/
structure Corners where
  nw : Pt
  ne : Pt
  sw : Pt
  se : Pt
deriving DecidableEq

/-- Integer pixel window (read area) of the raster. -/
structure Window where
  x : ℤ
  y : ℤ
  w : ℤ
  h : ℤ
deriving DecidableEq

/-- Rational-valued window: the fixed fallback window before Math.round is
applied (fixedReadX .. fixedReadHeight, server.js lines 273-277). -/
structure WindowQ where
  x : ℚ
  y : ℚ
  w : ℚ
  h : ℚ
deriving DecidableEq

/-- Embeds the bounding-window computation of server.js lines 224-232:
min and max over the four corner pixels, width and height as differences. -/
def candidateWindow (c : Corners) : Window :=
  let minX := min (min c.nw.x c.ne.x) (min c.sw.x c.se.x)
  let maxX := max (max c.nw.x c.ne.x) (max c.sw.x c.se.x)
  let minY := min (min c.nw.y c.ne.y) (min c.sw.y c.se.y)
  let maxY := max (max c.nw.y c.ne.y) (max c.sw.y c.se.y)
  ⟨minX, minY, maxX - minX, maxY - minY⟩

/-- Embeds the bounds check of server.js lines 245-246:
readX < 0 or readY < 0 or readX >= width or readY >= height or
readWidth <= 0 or readHeight <= 0. -/
def outOfBounds (info : RasterInfo) (wdw : Window) : Prop :=
  wdw.x < 0 ∨ wdw.y < 0 ∨ wdw.x ≥ info.width ∨ wdw.y ≥ info.height ∨
    wdw.w ≤ 0 ∨ wdw.h ≤ 0

instance (info : RasterInfo) (wdw : Window) : Decidable (outOfBounds info wdw) := by
  unfold outOfBounds; infer_instance

/-- Modelled from the spec: the spec phrase "the window lies entirely
outside [0,rasterWidth) x [0,rasterHeight)", used only to compare the
claimed rejection condition of C1 with the one in the source. -/
def entirelyOutsideSpec (info : RasterInfo) (wdw : Window) : Prop :=
  wdw.x + wdw.w ≤ 0 ∨ wdw.x ≥ info.width ∨ wdw.y + wdw.h ≤ 0 ∨ wdw.y ≥ info.height

instance (info : RasterInfo) (wdw : Window) : Decidable (entirelyOutsideSpec info wdw) := by
  unfold entirelyOutsideSpec; infer_instance

/-- Embeds the oversize check of server.js line 254:
readWidth > width * 0.5 or readHeight > height * 0.5. -/
def oversize (info : RasterInfo) (wdw : Window) : Prop :=
  (wdw.w : ℚ) > (info.width : ℚ) * 0.5 ∨ (wdw.h : ℚ) > (info.height : ℚ) * 0.5

instance (info : RasterInfo) (wdw : Window) : Decidable (oversize info wdw) := by
  unfold oversize; infer_instance

/-- Embeds the fixed fallback window of server.js lines 272-277:
fixedSize = min(width, height) / 10, the corner clamped to 0 with
Math.max, the extent clamped with Math.min; all in exact rationals, as
these appear before Math.round is applied (lines 292-295). -/
def fixedWindowQ (info : RasterInfo) (c : Pt) : WindowQ :=
  let fixedSize : ℚ := min (info.width : ℚ) (info.height : ℚ) / 10
  let fx : ℚ := max 0 ((c.x : ℚ) - fixedSize / 2)
  let fy : ℚ := max 0 ((c.y : ℚ) - fixedSize / 2)
  ⟨fx, fy, min ((info.width : ℚ) - fx) fixedSize, min ((info.height : ℚ) - fy) fixedSize⟩

/-- Embeds server.js lines 292-295: Math.round applied to each component
of the fixed fallback window. -/
def roundWindow (q : WindowQ) : Window :=
  ⟨round q.x, round q.y, round q.w, round q.h⟩

/-- Embeds the edge adjustment of server.js lines 354-357 on the normal
path: clamp x and y to at least 0 and the extent to the raster. -/
def adjustWindow (info : RasterInfo) (wdw : Window) : Window :=
  let ax := max 0 wdw.x
  let ay := max 0 wdw.y
  ⟨ax, ay, min (info.width - ax) wdw.w, min (info.height - ay) wdw.h⟩

/-- Outcome of window resolution: no coverage (the handler sends the empty
tile), the adjusted window of the normal path, or the rounded fixed window
of the high-zoom fallback path.  The two covered outcomes are kept apart
because the source caches them differently (only the normal path evicts). -/
inductive Resolution where
  | noCoverage : Resolution
  | clamped : Window → Resolution
  | fallback : Window → Resolution
deriving DecidableEq

/-- Embeds the window-resolution control flow of server.js lines 224-364:
bounds check, oversize check with the z >= 14 fixed-window fallback
(center = none models the proj4 call for the center point throwing, which
the catch block turns into an empty tile), and the normal-path clamping.
The window carried by clamped or fallback is exactly the window the source
then hands to the band reads and the RGB interleave loop. -/
def resolveWindow (info : RasterInfo) (z : ℤ) (cs : Corners) (center : Option Pt) :
    Resolution :=
  let wdw := candidateWindow cs
  if outOfBounds info wdw then Resolution.noCoverage
  else if oversize info wdw then
    if z ≥ 14 then
      match center with
      | none => Resolution.noCoverage
      | some c =>
        let fq := fixedWindowQ info c
        if fq.w ≤ 0 ∨ fq.h ≤ 0 then Resolution.noCoverage
        else Resolution.fallback (roundWindow fq)
    else Resolution.noCoverage
  else
    let adj := adjustWindow info wdw
    if adj.w ≤ 0 ∨ adj.h ≤ 0 then Resolution.noCoverage
    else Resolution.clamped adj

/-- Embeds the RGB interleave loop of server.js lines 382-387 (and the
identical loop at lines 306-311): for each sample index i below n the
bytes band1[i], band2[i], band3[i] are written at offsets 3i, 3i+1, 3i+2.
Assignment into a Node Buffer truncates to an unsigned byte, hence the
mod 256. -/
def interleave (n : ℕ) (b1 b2 b3 : ℕ → ℕ) : List ℕ :=
  (List.range n).flatMap fun i => [b1 i % 256, b2 i % 256, b3 i % 256]

/-- Image bodies the handler can send: the transparent placeholder created
by sendEmptyTile (server.js lines 122-137: sharp create with the given
width, height and RGBA background), or the sharp-encoded tile built from a
raw interleaved buffer with its raw dimensions and the resize target
(lines 314-336 and 390-412 always resize to tileSize x tileSize).  The
codec is deterministic, so equal constructor data means byte-identical
output. -/
inductive TileBuf where
  | empty : ℕ → ℕ → ℕ → ℕ → ℕ → ℕ → TileBuf
  | encoded : List ℕ → ℤ → ℤ → ℕ → ℕ → TileBuf
deriving DecidableEq

/-- The standard tile size, const tileSize = 256 at server.js line 120. -/
def tileSize : ℕ := 256

/-- The body produced by sendEmptyTile: a tileSize x tileSize image with
background r=255, g=255, b=255, alpha=0 (fully transparent). -/
def emptyTile : TileBuf := TileBuf.empty tileSize tileSize 255 255 255 0

/-- HTTP response as far as the tile handler shapes it: status code,
Content-Type header, optional X-Cache header, and the image body. -/
structure Response where
  status : ℕ
  contentType : String
  xCache : Option String
  body : TileBuf
deriving DecidableEq

/-- Response assembled by sendEmptyTile: Express sends status 200 by
default, Content-Type image/png is set, no X-Cache header is set. -/
def emptyTileResponse : Response :=
  { status := 200, contentType := "image/png", xCache := none, body := emptyTile }

/-- The tile cache (const tileCache = new Map() at server.js line 117),
modelled as an insertion-ordered association list: the head is the oldest
entry, Map.set appends fresh keys at the tail. -/
abbrev Cache := List (String × TileBuf)

/-- Embeds tileCache.get (after tileCache.has): first entry whose key
matches. -/
def cacheGet (c : Cache) (k : String) : Option TileBuf :=
  (c.find? fun e => e.1 == k).map Prod.snd

/-- Embeds tileCache.set: replace in place when the key is present,
otherwise append at the tail (Map preserves insertion order). -/
def cacheSet (c : Cache) (k : String) (v : TileBuf) : Cache :=
  if (c.find? fun e => e.1 == k).isSome then
    c.map fun e => if e.1 == k then (k, v) else e
  else c ++ [(k, v)]

/-- Embeds the eviction of server.js lines 418-421: when the size exceeds
1000, delete the first (oldest-inserted) key. -/
def evictOldest (c : Cache) : Cache :=
  if 1000 < c.length then c.tail else c

/-- Embeds the cache key template at server.js line 158. -/
def cacheKey (z x y : ℤ) : String :=
  toString z ++ "_" ++ toString x ++ "_" ++ toString y

/-- Per-request environment of the handler.  The black-box collaborators
of the source are oracle fields: corners composes tileToLatLon, the opaque
proj4 reprojection and projToPixel for the four tile corners (none models
proj4 throwing, lines 189-192); centerPixel does the same for the tile
center (lines 263-270); readBand models band.pixels.read on a window
(none models a GDAL read rejection, lines 301-303 and 377-379); datasetOk
is false when initGdalDataset throws or yields no dataset (lines 147-153
and the outer catch at 435-438). -/
structure TileEnv where
  info : RasterInfo
  datasetOk : Bool
  corners : ℤ → ℤ → ℤ → Option Corners
  centerPixel : ℤ → ℤ → ℤ → Option Pt
  readBand : ℕ → Window → Option (ℕ → ℕ)

/-- Embeds the three band reads (bands 1, 2, 3): all must succeed. -/
def readBands (env : TileEnv) (wdw : Window) :
    Option ((ℕ → ℕ) × (ℕ → ℕ) × (ℕ → ℕ)) :=
  match env.readBand 1 wdw, env.readBand 2 wdw, env.readBand 3 wdw with
  | some d1, some d2, some d3 => some (d1, d2, d3)
  | _, _, _ => none

/-- Embeds the whole GET /api/tiles/:z/:x/:y handler (server.js lines
119-439): dataset check, cache lookup (HIT short-circuit, lines 157-164),
window resolution, band reads, interleave, encode, cache store - with
eviction on the normal path only (lines 417-421) and without eviction on
the fallback path (lines 338-339) - and the response including the
X-Cache header.  Every failure branch converges on sendEmptyTile. -/
def handleTile (env : TileEnv) (cache : Cache) (z x y : ℤ) : Response × Cache :=
  if env.datasetOk then
    let key := cacheKey z x y
    match cacheGet cache key with
    | some buf =>
      ({ status := 200, contentType := "image/png", xCache := some "HIT", body := buf },
       cache)
    | none =>
      match env.corners z x y with
      | none => (emptyTileResponse, cache)
      | some cs =>
        match resolveWindow env.info z cs (env.centerPixel z x y) with
        | Resolution.noCoverage => (emptyTileResponse, cache)
        | Resolution.fallback adj =>
          match readBands env adj with
          | none => (emptyTileResponse, cache)
          | some (d1, d2, d3) =>
            let tile := TileBuf.encoded (interleave (adj.w * adj.h).toNat d1 d2 d3)
              adj.w adj.h tileSize tileSize
            ({ status := 200, contentType := "image/png", xCache := some "MISS",
               body := tile },
             cacheSet cache key tile)
        | Resolution.clamped adj =>
          match readBands env adj with
          | none => (emptyTileResponse, cache)
          | some (d1, d2, d3) =>
            let tile := TileBuf.encoded (interleave (adj.w * adj.h).toNat d1 d2 d3)
              adj.w adj.h tileSize tileSize
            ({ status := 200, contentType := "image/png", xCache := some "MISS",
               body := tile },
             evictOldest (cacheSet cache key tile))
  else (emptyTileResponse, cache)

/-- Concrete raster of 100 x 100 pixels, used in witnesses. -/
def infoA : RasterInfo := ⟨100, 100⟩

/-- Concrete raster of 100 x 30 pixels: min dimension 30 makes the fixed
fallback size 3, so halving it produces fractional window corners. -/
def infoB : RasterInfo := ⟨100, 30⟩

/-- Corner pixels of a window that only partially overlaps the raster:
bounding window x = -1, y = 0, width 10, height 10. -/
def csOverlap : Corners := ⟨⟨-1, 0⟩, ⟨9, 0⟩, ⟨-1, 10⟩, ⟨9, 10⟩⟩

/-- Corner pixels of an in-bounds window of width 60, which exceeds half
of the width of infoB (60 > 50). -/
def csBig : Corners := ⟨⟨0, 0⟩, ⟨60, 0⟩, ⟨0, 10⟩, ⟨60, 10⟩⟩

/-- Corner pixels of a small in-bounds window (x = 10, y = 10, 2 x 2). -/
def csSmall : Corners := ⟨⟨10, 10⟩, ⟨12, 10⟩, ⟨10, 12⟩, ⟨12, 12⟩⟩

/-- Environment whose oracles answer every request with the given fixed
data; band reads succeed with constant-zero samples. -/
def testEnv (info : RasterInfo) (cs : Option Corners) (cp : Option Pt) : TileEnv :=
  { info := info, datasetOk := true,
    corners := fun _ _ _ => cs,
    centerPixel := fun _ _ _ => cp,
    readBand := fun _ _ => some fun _ => 0 }

/-- Environment whose three band reads return the constant samples 10, 20
and 30, for the compositor witnesses. -/
def bandEnv (info : RasterInfo) (cs : Option Corners) : TileEnv :=
  { info := info, datasetOk := true,
    corners := fun _ _ _ => cs,
    centerPixel := fun _ _ _ => none,
    readBand := fun b _ => some fun _ => 10 * b }

/-- A cache already holding 1000 entries under a key no tile request uses. -/
def bigCache : Cache := List.replicate 1000 ("occupied", emptyTile)

/-- Unfolding step of the interleave loop: one more sample appends one
byte triple. -/
theorem interleave_succ (n : ℕ) (b1 b2 b3 : ℕ → ℕ) :
    interleave (n + 1) b1 b2 b3 =
      interleave n b1 b2 b3 ++ [b1 n % 256, b2 n % 256, b3 n % 256] := by
  unfold interleave
  rw [List.range_succ, List.flatMap_append]
  simp

/-- The interleaved buffer has exactly three bytes per sample. -/
theorem interleave_length (n : ℕ) (b1 b2 b3 : ℕ → ℕ) :
    (interleave n b1 b2 b3).length = 3 * n := by
  induction n with
  | zero => rfl
  | succ m ih =>
    rw [interleave_succ, List.length_append, ih]
    simp only [List.length_cons, List.length_nil]
    omega

/-- Bytes of the interleaved buffer: sample i of band b lands at offset
3 i + (b - 1), truncated to a byte. -/
theorem interleave_spec (n : ℕ) (b1 b2 b3 : ℕ → ℕ) (i : ℕ) (hi : i < n) :
    (interleave n b1 b2 b3).get? (3 * i) = some (b1 i % 256) ∧
    (interleave n b1 b2 b3).get? (3 * i + 1) = some (b2 i % 256) ∧
    (interleave n b1 b2 b3).get? (3 * i + 2) = some (b3 i % 256) := by
  induction n with
  | zero => omega
  | succ m ih =>
    rcases Nat.lt_succ_iff_lt_or_eq.mp hi with h | h
    · have hl := interleave_length m b1 b2 b3
      obtain ⟨g0, g1, g2⟩ := ih h
      rw [interleave_succ]
      exact ⟨by rw [List.get?_append (by omega)]; exact g0,
             by rw [List.get?_append (by omega)]; exact g1,
             by rw [List.get?_append (by omega)]; exact g2⟩
    · subst h
      rw [interleave_succ]
      have hl := interleave_length i b1 b2 b3
      have e0 : 3 * i - (interleave i b1 b2 b3).length = 0 := by omega
      have e1 : 3 * i + 1 - (interleave i b1 b2 b3).length = 1 := by omega
      have e2 : 3 * i + 2 - (interleave i b1 b2 b3).length = 2 := by omega
      exact ⟨by rw [List.get?_append_right (by omega), e0]; rfl,
             by rw [List.get?_append_right (by omega), e1]; rfl,
             by rw [List.get?_append_right (by omega), e2]; rfl⟩

/-- C6: for every tile index (x, y, z) with z >= 0 the corner coordinates
satisfy lon = x / 2^z * 360 - 180 and lat = (180 / pi) * atan(sinh n) with
n = pi - 2 pi y / 2^z (the code writes sinh n as 0.5 * (exp n - exp (-n)));
for every projected point the pixel coordinates are the rounded affine
inverses; and the candidate window is the min/max bounding box of the four
transformed corner pixels. -/
theorem c6_coordinate_formulas (x y : ℤ) (z : ℕ) (gt : GeoTransform)
    (px py : ℝ) (cs : Corners) :
    (tileToLatLon x y z).1 = (x : ℝ) / 2 ^ z * 360 - 180 ∧
    (tileToLatLon x y z).2 =
      180 / Real.pi *
        Real.arctan (Real.sinh (Real.pi - 2 * Real.pi * (y : ℝ) / 2 ^ z)) ∧
    projToPixel gt px py =
      (round ((px - gt.originX) / gt.pixelWidth),
       round ((py - gt.originY) / gt.pixelHeight)) ∧
    candidateWindow cs =
      ⟨min (min cs.nw.x cs.ne.x) (min cs.sw.x cs.se.x),
       min (min cs.nw.y cs.ne.y) (min cs.sw.y cs.se.y),
       max (max cs.nw.x cs.ne.x) (max cs.sw.x cs.se.x) -
         min (min cs.nw.x cs.ne.x) (min cs.sw.x cs.se.x),
       max (max cs.nw.y cs.ne.y) (max cs.sw.y cs.se.y) -
         min (min cs.nw.y cs.ne.y) (min cs.sw.y cs.se.y)⟩ := by
  refine ⟨rfl, ?_, rfl, rfl⟩
  unfold tileToLatLon
  dsimp only
  congr 1
  rw [Real.sinh_eq]
  ring_nf

/-- C7: for every window of width N and height M and band sample arrays
(sample values in the byte range, as the spec assumes), the compositor
output has length exactly 3 N M and out[3i] = band1[i], out[3i+1] =
band2[i], out[3i+2] = band3[i] for every sample index i below N M. -/
theorem c7_compositor_interleave (N M : ℕ) (b1 b2 b3 : ℕ → ℕ)
    (h : ∀ i, b1 i < 256 ∧ b2 i < 256 ∧ b3 i < 256) :
    (interleave (N * M) b1 b2 b3).length = 3 * (N * M) ∧
    ∀ i, i < N * M →
      (interleave (N * M) b1 b2 b3).get? (3 * i) = some (b1 i) ∧
      (interleave (N * M) b1 b2 b3).get? (3 * i + 1) = some (b2 i) ∧
      (interleave (N * M) b1 b2 b3).get? (3 * i + 2) = some (b3 i) := by
  refine ⟨interleave_length _ _ _ _, fun i hi => ?_⟩
  obtain ⟨g0, g1, g2⟩ := interleave_spec (N * M) b1 b2 b3 i hi
  rw [Nat.mod_eq_of_lt (h i).1] at g0
  rw [Nat.mod_eq_of_lt (h i).2.1] at g1
  rw [Nat.mod_eq_of_lt (h i).2.2] at g2
  exact ⟨g0, g1, g2⟩

/-- Witness for C7 at the constant bands 10, 20, 30 on a 2 x 2 window:
the buffer is the triple (10, 20, 30) repeated four times. -/
theorem c7_witness :
    (interleave (2 * 2) (fun _ => 10) (fun _ => 20) (fun _ => 30)).length = 3 * (2 * 2) ∧
    (interleave (2 * 2) (fun _ => 10) (fun _ => 20) (fun _ => 30)).get? (3 * 1) = some 10 ∧
    interleave (2 * 2) (fun _ => 10) (fun _ => 20) (fun _ => 30) =
      [10, 20, 30, 10, 20, 30, 10, 20, 30, 10, 20, 30] := by
  have h := c7_compositor_interleave 2 2 (fun _ => 10) (fun _ => 20) (fun _ => 30)
    (by intro i; refine ⟨?_, ?_, ?_⟩ <;> norm_num)
  exact ⟨h.1, (h.2 1 (by decide)).1, by decide⟩

/-- C9: the compositor performs no clamping or rescaling: the byte stored
for sample value v is exactly v reduced modulo 256. -/
theorem c9_byte_wraparound (n : ℕ) (b1 b2 b3 : ℕ → ℕ) (i : ℕ) (hi : i < n) :
    (interleave n b1 b2 b3).get? (3 * i) = some (b1 i % 256) ∧
    (interleave n b1 b2 b3).get? (3 * i + 1) = some (b2 i % 256) ∧
    (interleave n b1 b2 b3).get? (3 * i + 2) = some (b3 i % 256) :=
  interleave_spec n b1 b2 b3 i hi

/-- Witness for C9: the sample value 300 is stored as 44 = 300 mod 256,
wrapped around rather than saturated at 255. -/
theorem c9_witness :
    (interleave 1 (fun _ => 300) (fun _ => 0) (fun _ => 0)).get? (3 * 0) = some 44 ∧
    (44 : ℕ) ≠ 255 := by
  have h := (c9_byte_wraparound 1 (fun _ => 300) (fun _ => 0) (fun _ => 0) 0 (by decide)).1
  exact ⟨by simpa using h, by decide⟩

/-- Decidable characterization of the oversize check over the integers:
w > width * 0.5 exactly when width < 2 w. -/
theorem oversize_iff (info : RasterInfo) (wdw : Window) :
    oversize info wdw ↔ info.width < 2 * wdw.w ∨ info.height < 2 * wdw.h := by
  unfold oversize
  constructor
  · rintro (h | h)
    · left
      have hq : (info.width : ℚ) < 2 * (wdw.w : ℚ) := by linarith
      exact_mod_cast hq
    · right
      have hq : (info.height : ℚ) < 2 * (wdw.h : ℚ) := by linarith
      exact_mod_cast hq
  · rintro (h | h)
    · left
      have hq : (info.width : ℚ) < 2 * (wdw.w : ℚ) := by exact_mod_cast h
      linarith
    · right
      have hq : (info.height : ℚ) < 2 * (wdw.h : ℚ) := by exact_mod_cast h
      linarith

/-- Evaluation rule: a window failing the bounds check resolves to
NoCoverage. -/
theorem resolveWindow_oob (info : RasterInfo) (z : ℤ) (cs : Corners)
    (center : Option Pt) (h1 : outOfBounds info (candidateWindow cs)) :
    resolveWindow info z cs center = Resolution.noCoverage := by
  unfold resolveWindow
  rw [if_pos h1]

/-- Evaluation rule: an in-bounds oversize window below the high-zoom
threshold resolves to NoCoverage. -/
theorem resolveWindow_oversize_lowzoom (info : RasterInfo) (z : ℤ) (cs : Corners)
    (center : Option Pt) (h1 : ¬ outOfBounds info (candidateWindow cs))
    (h2 : oversize info (candidateWindow cs)) (h3 : ¬ z ≥ 14) :
    resolveWindow info z cs center = Resolution.noCoverage := by
  unfold resolveWindow
  rw [if_neg h1, if_pos h2, if_neg h3]

/-- Evaluation rule: the high-zoom fallback with a non-collapsed fixed
window resolves to the rounded fixed window. -/
theorem resolveWindow_fallback (info : RasterInfo) (z : ℤ) (cs : Corners) (c : Pt)
    (h1 : ¬ outOfBounds info (candidateWindow cs))
    (h2 : oversize info (candidateWindow cs)) (h3 : z ≥ 14)
    (h4 : ¬ ((fixedWindowQ info c).w ≤ 0 ∨ (fixedWindowQ info c).h ≤ 0)) :
    resolveWindow info z cs (some c) =
      Resolution.fallback (roundWindow (fixedWindowQ info c)) := by
  unfold resolveWindow
  rw [if_neg h1, if_pos h2, if_pos h3]
  exact if_neg h4

/-- Evaluation rule: the high-zoom fallback with a collapsed fixed window
resolves to NoCoverage (server.js lines 287-289). -/
theorem resolveWindow_fallback_empty (info : RasterInfo) (z : ℤ) (cs : Corners) (c : Pt)
    (h1 : ¬ outOfBounds info (candidateWindow cs))
    (h2 : oversize info (candidateWindow cs)) (h3 : z ≥ 14)
    (h4 : (fixedWindowQ info c).w ≤ 0 ∨ (fixedWindowQ info c).h ≤ 0) :
    resolveWindow info z cs (some c) = Resolution.noCoverage := by
  unfold resolveWindow
  rw [if_neg h1, if_pos h2, if_pos h3]
  exact if_pos h4

/-- Evaluation rule: an in-bounds window that is not oversize resolves to
the adjusted window of the normal path when that window is non-degenerate. -/
theorem resolveWindow_clamped (info : RasterInfo) (z : ℤ) (cs : Corners)
    (center : Option Pt) (h1 : ¬ outOfBounds info (candidateWindow cs))
    (h2 : ¬ oversize info (candidateWindow cs))
    (h3 : ¬ ((adjustWindow info (candidateWindow cs)).w ≤ 0 ∨
      (adjustWindow info (candidateWindow cs)).h ≤ 0)) :
    resolveWindow info z cs center =
      Resolution.clamped (adjustWindow info (candidateWindow cs)) := by
  unfold resolveWindow
  rw [if_neg h1, if_neg h2]
  exact if_neg h3

/-- Concrete evaluation of the fixed window on infoB at center (50, 15):
fixedSize = 3, so the corner lands on the half-integers 48.5 and 13.5. -/
theorem fixedWindowQ_B50 : fixedWindowQ infoB ⟨50, 15⟩ = ⟨97 / 2, 27 / 2, 3, 3⟩ := by
  unfold fixedWindowQ infoB
  simp only [WindowQ.mk.injEq]
  norm_num [min_def, max_def]

/-- Concrete evaluation of the fixed window on infoB at center (99, 15). -/
theorem fixedWindowQ_B99 : fixedWindowQ infoB ⟨99, 15⟩ = ⟨195 / 2, 27 / 2, 5 / 2, 3⟩ := by
  unfold fixedWindowQ infoB
  simp only [WindowQ.mk.injEq]
  norm_num [min_def, max_def]

/-- Concrete evaluation of the fixed window on infoB at center (300, 15):
the center lies far outside the raster, so the width collapses below 0. -/
theorem fixedWindowQ_B300 :
    fixedWindowQ infoB ⟨300, 15⟩ = ⟨597 / 2, 27 / 2, -(397 / 2), 3⟩ := by
  unfold fixedWindowQ infoB
  simp only [WindowQ.mk.injEq]
  norm_num [min_def, max_def]

/-- Concrete rounding: Math.round on 48.5 and 13.5 rounds the halves up. -/
theorem roundWindow_B50 : roundWindow ⟨97 / 2, 27 / 2, 3, 3⟩ = ⟨49, 14, 3, 3⟩ := by
  unfold roundWindow
  simp only [Window.mk.injEq]
  norm_num [round_eq]

/-- Concrete rounding at center (99, 15): round(97.5) = 98 and
round(2.5) = 3, so the rounded window ends at 98 + 3 = 101 > 100. -/
theorem roundWindow_B99 : roundWindow ⟨195 / 2, 27 / 2, 5 / 2, 3⟩ = ⟨98, 14, 3, 3⟩ := by
  unfold roundWindow
  simp only [Window.mk.injEq]
  norm_num [round_eq]

/-- C1 (amended): the resolver reports NoCoverage at the bounds-check step
exactly when x < 0 or y < 0 or x >= rasterWidth or y >= rasterHeight or
width <= 0 or height <= 0; in particular a window with x < 0 is rejected
here even when it partially overlaps the raster, rather than being passed
on to clamping. -/
theorem c1_bounds_check_amended (info : RasterInfo) (z : ℤ) (cs : Corners)
    (center : Option Pt) :
    (outOfBounds info (candidateWindow cs) ↔
      ((candidateWindow cs).x < 0 ∨ (candidateWindow cs).y < 0 ∨
        (candidateWindow cs).x ≥ info.width ∨ (candidateWindow cs).y ≥ info.height ∨
        (candidateWindow cs).w ≤ 0 ∨ (candidateWindow cs).h ≤ 0)) ∧
    (outOfBounds info (candidateWindow cs) →
      resolveWindow info z cs center = Resolution.noCoverage) :=
  ⟨Iff.rfl, fun h => resolveWindow_oob info z cs center h⟩

/-- C1 counterexample: the window (-1, 0, 10, 10) on a 100 x 100 raster
partially overlaps the raster (x + width = 9 > 0) and has positive extent,
so by the claim it should pass on to clamping; the resolver nevertheless
reports NoCoverage because x < 0. -/
theorem c1_counterexample :
    resolveWindow infoA 12 csOverlap none = Resolution.noCoverage ∧
    ¬ entirelyOutsideSpec infoA (candidateWindow csOverlap) ∧
    0 < (candidateWindow csOverlap).w ∧ 0 < (candidateWindow csOverlap).h ∧
    (candidateWindow csOverlap).x < 0 ∧
    0 < (candidateWindow csOverlap).x + (candidateWindow csOverlap).w := by
  refine ⟨resolveWindow_oob infoA 12 csOverlap none (by decide),
    by decide, by decide, by decide, by decide, by decide⟩

/-- Witness for C1 at the concrete partially-overlapping window. -/
theorem c1_witness :
    resolveWindow infoA 7 csOverlap none = Resolution.noCoverage :=
  (c1_bounds_check_amended infoA 7 csOverlap none).2 (by decide)

/-- Clamp arithmetic over the integers: a corner clamped to at least 0
plus an extent clamped by the remaining span never passes the bound. -/
theorem clamp_sum_le_int (A B C : ℤ) : max 0 C + min (A - max 0 C) B ≤ A := by
  have h := min_le_left (A - max 0 C) B
  omega

/-- Clamp arithmetic over the rationals, same shape as clamp_sum_le_int. -/
theorem clamp_sum_le_rat (A B C : ℚ) : max 0 C + min (A - max 0 C) B ≤ A := by
  have h := min_le_left (A - max 0 C) B
  linarith

/-- The adjusted window of the normal path is fully valid as soon as its
extent is positive. -/
theorem adjustWindow_valid (info : RasterInfo) (wdw : Window)
    (hw : 0 < (adjustWindow info wdw).w) (hh : 0 < (adjustWindow info wdw).h) :
    0 ≤ (adjustWindow info wdw).x ∧ 0 ≤ (adjustWindow info wdw).y ∧
    0 < (adjustWindow info wdw).w ∧ 0 < (adjustWindow info wdw).h ∧
    (adjustWindow info wdw).x + (adjustWindow info wdw).w ≤ info.width ∧
    (adjustWindow info wdw).y + (adjustWindow info wdw).h ≤ info.height := by
  unfold adjustWindow at *
  exact ⟨le_max_left 0 _, le_max_left 0 _, hw, hh,
    clamp_sum_le_int info.width wdw.w wdw.x, clamp_sum_le_int info.height wdw.h wdw.y⟩

/-- The exact rational fixed window of the fallback path is fully valid as
soon as its extent is positive. -/
theorem fixedWindowQ_valid (info : RasterInfo) (c : Pt)
    (hw : 0 < (fixedWindowQ info c).w) (hh : 0 < (fixedWindowQ info c).h) :
    0 ≤ (fixedWindowQ info c).x ∧ 0 ≤ (fixedWindowQ info c).y ∧
    0 < (fixedWindowQ info c).w ∧ 0 < (fixedWindowQ info c).h ∧
    (fixedWindowQ info c).x + (fixedWindowQ info c).w ≤ (info.width : ℚ) ∧
    (fixedWindowQ info c).y + (fixedWindowQ info c).h ≤ (info.height : ℚ) := by
  unfold fixedWindowQ at *
  exact ⟨le_max_left 0 _, le_max_left 0 _, hw, hh,
    clamp_sum_le_rat (info.width : ℚ) _ _, clamp_sum_le_rat (info.height : ℚ) _ _⟩

/-- C4 (amended): every window the resolver hands to the compositor on the
normal clamped path satisfies 0 <= x, 0 <= y, 0 < w, 0 < h, x + w <= width
and y + h <= height; on the fallback path the same invariant holds for the
exact rational fixed window before rounding, and the handed window is its
componentwise Math.round image (which can leave the invariant, see the
counterexample). -/
theorem c4_window_validity_amended :
    (∀ (info : RasterInfo) (z : ℤ) (cs : Corners) (center : Option Pt) (adj : Window),
      resolveWindow info z cs center = Resolution.clamped adj →
      0 ≤ adj.x ∧ 0 ≤ adj.y ∧ 0 < adj.w ∧ 0 < adj.h ∧
        adj.x + adj.w ≤ info.width ∧ adj.y + adj.h ≤ info.height) ∧
    (∀ (info : RasterInfo) (z : ℤ) (cs : Corners) (c : Pt) (adj : Window),
      resolveWindow info z cs (some c) = Resolution.fallback adj →
      adj = roundWindow (fixedWindowQ info c) ∧
        0 ≤ (fixedWindowQ info c).x ∧ 0 ≤ (fixedWindowQ info c).y ∧
        0 < (fixedWindowQ info c).w ∧ 0 < (fixedWindowQ info c).h ∧
        (fixedWindowQ info c).x + (fixedWindowQ info c).w ≤ (info.width : ℚ) ∧
        (fixedWindowQ info c).y + (fixedWindowQ info c).h ≤ (info.height : ℚ)) := by
  constructor
  · intro info z cs center adj h
    simp only [resolveWindow] at h
    split at h
    · simp at h
    · split at h
      · split at h
        · split at h
          · simp at h
          · split at h
            · simp at h
            · simp at h
        · simp at h
      · split at h
        · simp at h
        · rename_i hpos
          push_neg at hpos
          obtain rfl := (Resolution.clamped.inj h).symm
          exact adjustWindow_valid info (candidateWindow cs) hpos.1 hpos.2
  · intro info z cs c adj h
    simp only [resolveWindow] at h
    split at h
    · simp at h
    · split at h
      · split at h
        · split at h
          · simp at h
          · rename_i hpos
            push_neg at hpos
            obtain rfl := (Resolution.fallback.inj h).symm
            exact ⟨rfl, fixedWindowQ_valid info c hpos.1 hpos.2⟩
        · simp at h
      · split at h
        · simp at h
        · simp at h

/-- C4 counterexample: on the 100 x 30 raster with center pixel (99, 15)
the exact fixed window is (97.5, 13.5, 2.5, 3); Math.round maps it to
(98, 14, 3, 3), and 98 + 3 = 101 exceeds the raster width 100, so the
resolver hands the compositor a window violating x + width <= rasterWidth. -/
theorem c4_counterexample :
    resolveWindow infoB 14 csBig (some ⟨99, 15⟩) = Resolution.fallback ⟨98, 14, 3, 3⟩ ∧
    infoB.width < (Window.mk 98 14 3 3).x + (Window.mk 98 14 3 3).w := by
  constructor
  · rw [resolveWindow_fallback infoB 14 csBig ⟨99, 15⟩ (by decide)
      ((oversize_iff _ _).mpr (by decide)) (by decide)
      (by rw [fixedWindowQ_B99]; norm_num), fixedWindowQ_B99, roundWindow_B99]
  · decide

/-- Evaluation of the resolver on the small in-bounds window of infoA. -/
theorem resolveWindow_small :
    resolveWindow infoA 0 csSmall none = Resolution.clamped ⟨10, 10, 2, 2⟩ := by
  rw [resolveWindow_clamped infoA 0 csSmall none (by decide)
    (fun hov => absurd ((oversize_iff _ _).mp hov) (by decide)) (by decide)]
  decide

/-- Witness for C4 on the normal path at the concrete window (10, 10, 2, 2)
inside the 100 x 100 raster. -/
theorem c4_witness :
    0 ≤ (Window.mk 10 10 2 2).x ∧ 0 ≤ (Window.mk 10 10 2 2).y ∧
    0 < (Window.mk 10 10 2 2).w ∧ 0 < (Window.mk 10 10 2 2).h ∧
    (Window.mk 10 10 2 2).x + (Window.mk 10 10 2 2).w ≤ infoA.width ∧
    (Window.mk 10 10 2 2).y + (Window.mk 10 10 2 2).h ≤ infoA.height :=
  c4_window_validity_amended.1 infoA 0 csSmall none ⟨10, 10, 2, 2⟩ resolveWindow_small

/-- C3 (amended): an in-bounds oversize candidate window resolves to
NoCoverage below zoom 14; at zoom >= 14 the resolver switches to the fixed
square window of side min(width, height) / 10 centered on the reprojected
tile center and clamped to the raster, and whenever that window keeps
positive width and height (and the band reads succeed) the handler answers
with a non-empty encoded tile resized to the standard 256 x 256 size and
X-Cache MISS; when the fixed window collapses the request degrades to the
empty tile instead of producing a non-empty one. -/
theorem c3_highzoom_fallback_amended :
    (∀ (info : RasterInfo) (z : ℤ) (cs : Corners) (center : Option Pt),
      ¬ outOfBounds info (candidateWindow cs) → oversize info (candidateWindow cs) →
      z < 14 → resolveWindow info z cs center = Resolution.noCoverage) ∧
    (∀ (info : RasterInfo) (z : ℤ) (cs : Corners) (c : Pt),
      ¬ outOfBounds info (candidateWindow cs) → oversize info (candidateWindow cs) →
      14 ≤ z → 0 < (fixedWindowQ info c).w → 0 < (fixedWindowQ info c).h →
      resolveWindow info z cs (some c) =
        Resolution.fallback (roundWindow (fixedWindowQ info c))) ∧
    (∀ (env : TileEnv) (cache : Cache) (z x y : ℤ) (cs : Corners) (adj : Window)
      (d1 d2 d3 : ℕ → ℕ), env.datasetOk = true →
      cacheGet cache (cacheKey z x y) = none →
      env.corners z x y = some cs →
      resolveWindow env.info z cs (env.centerPixel z x y) = Resolution.fallback adj →
      readBands env adj = some (d1, d2, d3) →
      (handleTile env cache z x y).1 =
        { status := 200, contentType := "image/png", xCache := some "MISS",
          body := TileBuf.encoded (interleave (adj.w * adj.h).toNat d1 d2 d3)
            adj.w adj.h tileSize tileSize }) := by
  refine ⟨?_, ?_, ?_⟩
  · intro info z cs center h1 h2 h3
    exact resolveWindow_oversize_lowzoom info z cs center h1 h2 (not_le.mpr h3)
  · intro info z cs c h1 h2 h3 h4 h5
    refine resolveWindow_fallback info z cs c h1 h2 h3 ?_
    rintro (hc | hc) <;> linarith
  · intro env cache z x y cs adj d1 d2 d3 hd hcg hcs hres hrb
    simp only [handleTile, hd, hcg, hcs, hres, hrb, if_true, eq_self_iff_true]

/-- C3 counterexample: at zoom 14 on the oversize in-bounds window of infoB
with the tile center reprojecting to pixel (300, 15) - far outside the
raster - the fixed window collapses and the request yields the empty tile,
not a non-empty encoded tile. -/
theorem c3_counterexample :
    oversize infoB (candidateWindow csBig) ∧
    ¬ outOfBounds infoB (candidateWindow csBig) ∧
    (14 : ℤ) ≥ 14 ∧
    resolveWindow infoB 14 csBig (some ⟨300, 15⟩) = Resolution.noCoverage ∧
    (handleTile (testEnv infoB (some csBig) (some ⟨300, 15⟩)) [] 14 0 0).1 =
      emptyTileResponse := by
  have hov := (oversize_iff infoB (candidateWindow csBig)).mpr (by decide)
  have hres : resolveWindow infoB 14 csBig (some ⟨300, 15⟩) = Resolution.noCoverage :=
    resolveWindow_fallback_empty infoB 14 csBig ⟨300, 15⟩ (by decide) hov (by decide)
      (by rw [fixedWindowQ_B300]; left; norm_num)
  refine ⟨hov, by decide, by decide, hres, ?_⟩
  simp only [handleTile, testEnv, cacheGet, List.find?_nil, Option.map_none', hres,
    if_true, eq_self_iff_true]

/-- Witness for C3 at zoom 14 on infoB with center pixel (50, 15), where
the fixed window stays positive. -/
theorem c3_witness :
    resolveWindow infoB 14 csBig (some ⟨50, 15⟩) =
      Resolution.fallback (roundWindow (fixedWindowQ infoB ⟨50, 15⟩)) :=
  c3_highzoom_fallback_amended.2.1 infoB 14 csBig ⟨50, 15⟩ (by decide)
    ((oversize_iff _ _).mpr (by decide)) (by decide)
    (by rw [fixedWindowQ_B50]; norm_num) (by rw [fixedWindowQ_B50]; norm_num)

/-- C5: for every request the tile handler responds with HTTP status 200
and Content-Type image/png; every response that is neither a cache HIT nor
a computed MISS is the fully transparent 256 x 256 placeholder tile. -/
theorem c5_always_200_png (env : TileEnv) (cache : Cache) (z x y : ℤ) :
    (handleTile env cache z x y).1.status = 200 ∧
    (handleTile env cache z x y).1.contentType = "image/png" ∧
    ((handleTile env cache z x y).1.xCache = none →
      (handleTile env cache z x y).1.body = TileBuf.empty 256 256 255 255 255 0) := by
  unfold handleTile
  repeat' split
  all_goals try (simp [emptyTileResponse, emptyTile, tileSize]; done)
  all_goals
    rcases hcg : cacheGet cache (cacheKey z x y) with _ | buf <;>
      simp [hcg, emptyTileResponse, emptyTile, tileSize]

/-- Witness for C5: a request whose corner reprojection fails still gets a
200 image/png response carrying the transparent placeholder. -/
theorem c5_witness :
    (handleTile (testEnv infoA none none) [] 3 1 2).1.status = 200 ∧
    (handleTile (testEnv infoA none none) [] 3 1 2).1.body =
      TileBuf.empty 256 256 255 255 255 0 := by
  have h := c5_always_200_png (testEnv infoA none none) [] 3 1 2
  exact ⟨h.1, h.2.2 (by decide)⟩

/-- Response paths that set no X-Cache header are exactly the
sendEmptyTile paths, and they leave the cache untouched. -/
theorem handleTile_untagged (env : TileEnv) (cache : Cache) (z x y : ℤ)
    (h : (handleTile env cache z x y).1.xCache = none) :
    handleTile env cache z x y = (emptyTileResponse, cache) := by
  revert h
  unfold handleTile
  repeat' split
  all_goals intro h
  all_goals
    rcases hcg : cacheGet cache (cacheKey z x y) with _ | buf <;>
      simp_all [emptyTileResponse]

/-- C10: a request that ends in sendEmptyTile leaves the cache unchanged
and carries no X-Cache header, so repeating the request recomputes the
same empty result and is never answered as a cache HIT. -/
theorem c10_empty_never_cached (env : TileEnv) (cache : Cache) (z x y : ℤ)
    (h : (handleTile env cache z x y).1 = emptyTileResponse) :
    (handleTile env cache z x y).2 = cache ∧
    (handleTile env cache z x y).1.xCache = none ∧
    handleTile env ((handleTile env cache z x y).2) z x y = handleTile env cache z x y ∧
    (handleTile env ((handleTile env cache z x y).2) z x y).1.xCache ≠ some "HIT" := by
  have hx : (handleTile env cache z x y).1.xCache = none := by rw [h]; rfl
  have he := handleTile_untagged env cache z x y hx
  have h2 : (handleTile env cache z x y).2 = cache := by rw [he]
  refine ⟨h2, hx, ?_, ?_⟩
  · rw [h2]
  · rw [h2, he]
    simp [emptyTileResponse]

/-- Witness for C10: an uncovered request against the empty cache leaves
it empty and is untagged. -/
theorem c10_witness :
    (handleTile (testEnv infoA none none) [] 9 9 9).2 = ([] : Cache) ∧
    (handleTile (testEnv infoA none none) [] 9 9 9).1.xCache = none := by
  have h := c10_empty_never_cached (testEnv infoA none none) [] 9 9 9 (by decide)
  exact ⟨h.1, h.2.1⟩

/-- Searching a list extended by one entry: when the predicate rejects
every earlier entry and accepts the appended one, find? returns it. -/
theorem find?_append_last {α : Type} (p : α → Bool) (l : List α) (a : α)
    (hl : ∀ e ∈ l, p e = false) (ha : p a = true) :
    (l ++ [a]).find? p = some a := by
  induction l with
  | nil => simp [List.find?, ha]
  | cons x xs ih =>
    have hx : p x = false := hl x (List.mem_cons_self x xs)
    rw [List.cons_append, List.find?_cons_of_neg _ (by simp [hx])]
    exact ih fun e he => hl e (List.mem_cons_of_mem x he)

/-- A cache miss means every resident entry has a different key. -/
theorem cacheGet_eq_none_iff (c : Cache) (k : String) :
    cacheGet c k = none ↔ ∀ e ∈ c, (e.1 == k) = false := by
  unfold cacheGet
  rw [Option.map_eq_none']
  rw [List.find?_eq_none]
  constructor
  · intro h e he
    simpa using h e he
  · intro h e he
    simp [h e he]

/-- Appending a fresh key makes it retrievable. -/
theorem cacheGet_append_last (c : Cache) (k : String) (v : TileBuf)
    (hall : ∀ e ∈ c, (e.1 == k) = false) :
    cacheGet (c ++ [(k, v)]) k = some v := by
  unfold cacheGet
  rw [find?_append_last _ c (k, v) hall (by simp)]
  rfl

/-- Map.set on a missing key appends the entry at the tail. -/
theorem cacheSet_miss (c : Cache) (k : String) (v : TileBuf)
    (h : cacheGet c k = none) :
    cacheSet c k v = c ++ [(k, v)] := by
  have hf : (c.find? fun e => e.1 == k) = none := by
    unfold cacheGet at h
    exact Option.map_eq_none'.mp h
  unfold cacheSet
  rw [hf]
  simp

/-- After storing under a missing key the stored tile is found again, both
without eviction and after the FIFO eviction, which only ever deletes the
oldest entry and never the one just appended. -/
theorem cacheGet_store_found (c : Cache) (k : String) (v : TileBuf)
    (h : cacheGet c k = none) :
    cacheGet (cacheSet c k v) k = some v ∧
    cacheGet (evictOldest (cacheSet c k v)) k = some v := by
  have hall := (cacheGet_eq_none_iff c k).mp h
  rw [cacheSet_miss c k v h]
  refine ⟨cacheGet_append_last c k v hall, ?_⟩
  unfold evictOldest
  split
  · rename_i hlen
    cases c with
    | nil => simp at hlen
    | cons hd tl =>
      show cacheGet (tl ++ [(k, v)]) k = some v
      exact cacheGet_append_last tl k v fun e he => hall e (List.mem_cons_of_mem hd he)
  · exact cacheGet_append_last c k v hall

/-- Inversion of a MISS response: the dataset was up, the key was absent,
and the new cache is the stored (and on the normal path evicted) cache
holding the response body under the request key. -/
theorem handleTile_miss_inv (env : TileEnv) (cache : Cache) (z x y : ℤ)
    (hm : (handleTile env cache z x y).1.xCache = some "MISS") :
    env.datasetOk = true ∧
    cacheGet cache (cacheKey z x y) = none ∧
    ((handleTile env cache z x y).2 =
        cacheSet cache (cacheKey z x y) ((handleTile env cache z x y).1.body) ∨
      (handleTile env cache z x y).2 =
        evictOldest (cacheSet cache (cacheKey z x y) ((handleTile env cache z x y).1.body))) := by
  revert hm
  unfold handleTile
  repeat' split
  all_goals intro hm
  all_goals
    rcases hcg : cacheGet cache (cacheKey z x y) with _ | buf <;>
      simp_all [emptyTileResponse]

/-- C8 (amended): when the first request for a key completes the full
pipeline (X-Cache MISS), the immediately repeated request is answered from
the cache with X-Cache HIT, a byte-identical body, and an unchanged cache. -/
theorem c8_miss_then_hit_amended (env : TileEnv) (cache : Cache) (z x y : ℤ)
    (hm : (handleTile env cache z x y).1.xCache = some "MISS") :
    handleTile env ((handleTile env cache z x y).2) z x y =
      ({ status := 200, contentType := "image/png", xCache := some "HIT",
         body := (handleTile env cache z x y).1.body },
       (handleTile env cache z x y).2) := by
  obtain ⟨hd, hcg, hor⟩ := handleTile_miss_inv env cache z x y hm
  have hfound : cacheGet ((handleTile env cache z x y).2) (cacheKey z x y) =
      some ((handleTile env cache z x y).1.body) := by
    rcases hor with h2 | h2 <;> rw [h2]
    · exact (cacheGet_store_found cache _ _ hcg).1
    · exact (cacheGet_store_found cache _ _ hcg).2
  set r := handleTile env cache z x y with hr
  simp only [handleTile, hd, if_true, eq_self_iff_true, hfound]

/-- Evaluation of the first request on the small clamped window: a MISS
that stores the encoded 2 x 2 tile under the request key. -/
theorem handleTile_small_first :
    handleTile (testEnv infoA (some csSmall) none) [] 0 0 0 =
      ({ status := 200, contentType := "image/png", xCache := some "MISS",
         body := TileBuf.encoded (interleave 4 (fun _ => 0) (fun _ => 0) (fun _ => 0))
           2 2 256 256 },
       [(cacheKey 0 0 0,
         TileBuf.encoded (interleave 4 (fun _ => 0) (fun _ => 0) (fun _ => 0))
           2 2 256 256)]) := by
  simp only [handleTile, testEnv, resolveWindow_small, cacheGet, cacheSet, evictOldest,
    readBands, List.find?_nil, Option.map_none', if_true, eq_self_iff_true]
  simp [tileSize]

/-- Witness for C8 at the concrete clamped request: the second request is
a HIT carrying the identical body. -/
theorem c8_witness :
    handleTile (testEnv infoA (some csSmall) none)
        ((handleTile (testEnv infoA (some csSmall) none) [] 0 0 0).2) 0 0 0 =
      ({ status := 200, contentType := "image/png", xCache := some "HIT",
         body := (handleTile (testEnv infoA (some csSmall) none) [] 0 0 0).1.body },
       (handleTile (testEnv infoA (some csSmall) none) [] 0 0 0).2) :=
  c8_miss_then_hit_amended (testEnv infoA (some csSmall) none) [] 0 0 0
    (by rw [handleTile_small_first])

/-- C8 counterexample: a request whose corner reprojection fails responds
with no X-Cache header at all, so not every response from the tile
endpoint carries X-Cache HIT or MISS, and the first of two consecutive
requests for such a key is not marked MISS. -/
theorem c8_counterexample :
    (handleTile (testEnv infoA none none) [] 5 1 2).1.xCache = none ∧
    (handleTile (testEnv infoA none none) [] 5 1 2).1.xCache ≠ some "MISS" ∧
    (handleTile (testEnv infoA none none) [] 5 1 2).1.xCache ≠ some "HIT" :=
  ⟨by decide, by decide, by decide⟩

/-- Evaluation of the resolver for the C2 failing input: zoom 14, oversize
in-bounds candidate window, center pixel (50, 15). -/
theorem resolveWindow_C2 :
    resolveWindow infoB 14 csBig (some ⟨50, 15⟩) = Resolution.fallback ⟨49, 14, 3, 3⟩ := by
  rw [resolveWindow_fallback infoB 14 csBig ⟨50, 15⟩ (by decide)
    ((oversize_iff _ _).mpr (by decide)) (by decide)
    (by rw [fixedWindowQ_B50]; norm_num), fixedWindowQ_B50, roundWindow_B50]

/-- The request key of the C2 failing input misses the pre-filled cache. -/
theorem bigCache_miss : cacheGet bigCache (cacheKey 14 0 0) = none := by
  refine (cacheGet_eq_none_iff _ _).mpr ?_
  intro e he
  rw [List.eq_of_mem_replicate he]
  decide

/-- C2 (code bug), evaluated at the failing input: with the cache already
holding 1000 entries, a fallback-path request stores its tile without the
eviction step, leaving 1001 resident entries - the store at server.js
lines 338-339 has no counterpart of the eviction at lines 417-421. -/
theorem c2_fallback_store_exceeds_bound :
    ((handleTile (testEnv infoB (some csBig) (some ⟨50, 15⟩)) bigCache 14 0 0).2).length =
      1001 ∧
    (handleTile (testEnv infoB (some csBig) (some ⟨50, 15⟩)) bigCache 14 0 0).1.xCache =
      some "MISS" := by
  constructor
  · simp only [handleTile, testEnv, bigCache_miss, resolveWindow_C2, readBands,
      if_true, eq_self_iff_true]
    rw [cacheSet_miss _ _ _ bigCache_miss]
    simp [bigCache]
  · simp only [handleTile, testEnv, bigCache_miss, resolveWindow_C2, readBands,
      if_true, eq_self_iff_true]

end TileServer
